import Mathlib

/-!
Verification development for py2neo's `primitives.py`.

The file shallowly embeds the property-casting rules (`cast_property`),
the `PropertySet` dict subclass, and the `GraphView` set algebra with the
`Node`/`Relationship` entities, and proves or refutes the specification
claims about them.

Modelling conventions:
* Python values that can be handed to the property machinery are an
  inductive `PyValue`.  Python `float` and `Decimal` payloads are carried
  as `Rat` (IEEE rounding is outside the scope of every claim);
  `datetime`/`date`/`time` objects are carried by their ISO-8601 string,
  which is what `isoformat()` returns; `frozenset`/`list`/`set`/`tuple`
  inputs are all carried by the single list constructor, because
  `cast_property` only ever iterates them; any unsupported object is the
  constructor `other`.  Python `None` is the constructor `none`.
* `PyList` is a mutual inductive copy of `List PyValue` so that all
  functions are plain structural recursions that the kernel can evaluate.
* `py2neo.compat.integer`/`string` and `py2neo.util.ustr` are the py3
  aliases (`int`, `str`, identity on `str`); they are not under `src/`,
  and this is their documented py3 behaviour.
-/

/-- The Python runtime type of a value, as used by the `isinstance`
checks inside `cast_property` (`type(item)` of a cast result). -/
inductive PyType
  | boolT
  | floatT
  | intT
  | strT
  | listT
  | dateT
  | decimalT
  | complexT
  | noneT
  | otherT
deriving DecidableEq, Repr

mutual
/-- A Python value reaching the property layer of `primitives.py`. -/
inductive PyValue
  | bool (b : Bool)
  | float (f : Rat)
  | int (i : Int)
  | str (s : String)
  | pylist (xs : PyList)
  | date (iso : String)
  | decimal (d : Rat)
  | complex (re im : Rat)
  | none
  | other
/-- A list of Python values (mutual copy of `List PyValue`). -/
inductive PyList
  | nil
  | cons (x : PyValue) (xs : PyList)
end

deriving instance DecidableEq for PyValue, PyList

deriving instance DecidableEq for Except

/-- `type(v)` for the values above. -/
def typeOfValue : PyValue → PyType
  | .bool _ => .boolT
  | .float _ => .floatT
  | .int _ => .intT
  | .str _ => .strT
  | .pylist _ => .listT
  | .date _ => .dateT
  | .decimal _ => .decimalT
  | .complex _ _ => .complexT
  | .none => .noneT
  | .other => .otherT

/-- Python `isinstance(x, target)` restricted to the classes that can
appear here: a class matches itself, and `bool` is a subclass of `int`. -/
def isinstanceOf (t target : PyType) : Bool :=
  t == target || (t == PyType.boolT && target == PyType.intT)

/-- The errors `cast_property` can raise, named after the spec's error
taxonomy (`ValueError`s: integer out of range, nested collection;
`TypeError`s: mixed list items, unsupported type). -/
inductive CastError
  | invalidPropertyType
  | outOfRange
  | mixedListType
  | nestedListNotAllowed
deriving DecidableEq, Repr

def JAVA_INTEGER_MIN_VALUE : Int := -(2 ^ 63)

def JAVA_INTEGER_MAX_VALUE : Int := 2 ^ 63 - 1

/-- `py2neo.util.ustr` on a py3 `str` is the string itself. -/
def ustr (s : String) : String := s

/-- `float(Decimal)`: the float payload obtained from a decimal payload
(rounding is irrelevant to every claim, so the payload is kept). -/
def decimalToFloat (d : Rat) : Rat := d

mutual
/-- `cast_property` from `primitives.py`: validate/normalize a candidate
property value, or fail. -/
def cast_property : PyValue → Except CastError PyValue
  | .bool b => .ok (.bool b)
  | .float f => .ok (.float f)
  | .int i =>
      if JAVA_INTEGER_MIN_VALUE ≤ i ∧ i ≤ JAVA_INTEGER_MAX_VALUE then .ok (.int i)
      else .error .outOfRange
  | .str s => .ok (.str (ustr s))
  | .pylist xs =>
      match cast_property_list Option.none xs with
      | .ok ys => .ok (.pylist ys)
      | .error e => .error e
  | .date iso => .ok (.str iso)
  | .decimal d => .ok (.float (decimalToFloat d))
  | .complex re im => .ok (.pylist (.cons (.float re) (.cons (.float im) .nil)))
  | .none => .error .invalidPropertyType
  | .other => .error .invalidPropertyType
/-- The item loop inside `cast_property`'s sequence branch.  `listType`
is the `list_type` variable: `Option.none` until the first item fixes it.
Each item is recursively cast; when `list_type` is first assigned the
code raises if it is `list`, and later items must `isinstance`-match it. -/
def cast_property_list : Option PyType → PyList → Except CastError PyList
  | _, .nil => .ok .nil
  | listType, .cons x rest =>
      match cast_property x with
      | .error e => .error e
      | .ok item =>
          match listType with
          | Option.none =>
              if typeOfValue item == PyType.listT then .error .nestedListNotAllowed
              else
                match cast_property_list (some (typeOfValue item)) rest with
                | .ok tail => .ok (.cons item tail)
                | .error e => .error e
          | some t =>
              if isinstanceOf (typeOfValue item) t then
                match cast_property_list (some t) rest with
                | .ok tail => .ok (.cons item tail)
                | .error e => .error e
              else .error .mixedListType
end

/-! ## PropertySet

`PropertySet` is a `dict` subclass; we model its observable state as the
ordered association list of its entries (Python dicts preserve insertion
order and hold each key once).  Mutating methods are state-passing: they
return the new state together with the error they raised, if any. -/

abbrev PropertySet := List (String × PyValue)

/-- `dict.__setitem__`: overwrite the value of an existing key in place,
or append a new entry. -/
def dictSet {α : Type} : List (String × α) → String → α → List (String × α)
  | [], k, v => [(k, v)]
  | (k', v') :: rest, k, v =>
      if k' = k then (k', v) :: rest else (k', v') :: dictSet rest k v

/-- `dict.__delitem__` with the `KeyError` swallowed (removes the key if
present, does nothing otherwise). -/
def eraseKey : PropertySet → String → PropertySet
  | [], _ => []
  | (k', v') :: rest, k =>
      if k' = k then eraseKey rest k else (k', v') :: eraseKey rest k

/-- `key in self` (dict containment). -/
def containsKey : PropertySet → String → Bool
  | [], _ => false
  | (k', _) :: rest, k => if k' = k then true else containsKey rest k

/-- Raw dict lookup. -/
def lookupVal : PropertySet → String → Option PyValue
  | [], _ => Option.none
  | (k', v) :: rest, k => if k' = k then some v else lookupVal rest k

/-- `PropertySet.__getitem__`, which is `dict.get`: `None` when the key
is absent. -/
def PropertySet.getitem (ps : PropertySet) (k : String) : PyValue :=
  (lookupVal ps k).getD PyValue.none

/-- `PropertySet.__setitem__`: `None` deletes the key (no error if it is
already absent); any other value is cast and the canonical result stored.
Returns the new state and the raised error, if any. -/
def PropertySet.setitem (ps : PropertySet) (k : String) (v : PyValue) :
    PropertySet × Option CastError :=
  match v with
  | PyValue.none => (eraseKey ps k, Option.none)
  | v =>
      match cast_property v with
      | .ok c => (dictSet ps k c, Option.none)
      | .error e => (ps, some e)

/-- `dict(iterable)`: build a dict from key/value pairs, last write wins,
keys keep the position of their first occurrence. -/
def pyDict {α : Type} (items : List (String × α)) : List (String × α) :=
  items.foldl (fun d kv => dictSet d kv.1 kv.2) []

/-- The loop body of `PropertySet.update`: assign the pairs one at a
time through `__setitem__`, stopping at the first raised error (the
exception propagates; earlier assignments are kept). -/
def applySetitems : PropertySet → List (String × PyValue) → PropertySet × Option CastError
  | ps, [] => (ps, Option.none)
  | ps, (k, v) :: rest =>
      match PropertySet.setitem ps k v with
      | (ps', Option.none) => applySetitems ps' rest
      | (ps', some e) => (ps', some e)

/-- `PropertySet.update`: `for key, value in dict(iterable).items():
self[key] = value`. -/
def PropertySet.update (ps : PropertySet) (items : List (String × PyValue)) :
    PropertySet × Option CastError :=
  applySetitems ps (pyDict items)

/-- `PropertySet.replace`: `self.clear()` then `self.update(...)`. -/
def PropertySet.replace (_ps : PropertySet) (items : List (String × PyValue)) :
    PropertySet × Option CastError :=
  PropertySet.update [] items

/-- `PropertySet.__init__`: a fresh set updated with the given pairs
(claims only build sets from pairs that cast successfully). -/
def PropertySet.init (items : List (String × PyValue)) : PropertySet :=
  (PropertySet.update [] items).1

/-- `dict.setdefault`: return the existing value, or insert the supplied
default as given and return it.  Note it bypasses
`PropertySet.__setitem__`, so nothing is cast. -/
def dictSetdefault (ps : PropertySet) (k : String) (d : PyValue) :
    PyValue × PropertySet :=
  match lookupVal ps k with
  | some v => (v, ps)
  | Option.none => (d, ps ++ [(k, d)])

/-- `PropertySet.setdefault`. -/
def PropertySet.setdefault (ps : PropertySet) (k : String) (d : PyValue) :
    PyValue × PropertySet :=
  if containsKey ps k then (PropertySet.getitem ps k, ps)
  else
    match d with
    | PyValue.none => (PyValue.none, ps)
    | d => dictSetdefault ps k d

/-- Is a value the absent marker? -/
def isNoneVal : PyValue → Bool
  | PyValue.none => true
  | _ => false

/-- No entry of the set maps to the absent marker. -/
def noNoneVals (ps : PropertySet) : Bool :=
  ps.all fun kv => !(isNoneVal kv.2)

/-- Numeric view of a value for Python `==`: `bool`/`int`/`float`/
`Decimal`/`complex` all compare numerically (as a complex number). -/
def toComplexPair : PyValue → Option (Rat × Rat)
  | .bool b => some (if b then 1 else 0, 0)
  | .int i => some ((i : Rat), 0)
  | .float f => some (f, 0)
  | .decimal d => some (d, 0)
  | .complex re im => some (re, im)
  | _ => Option.none

mutual
/-- Python `==` on the values above: numeric kinds compare numerically,
strings and dates by value, lists elementwise; anything else (including
two distinct unsupported objects) compares unequal. -/
def pyEq : PyValue → PyValue → Bool
  | .pylist xs, .pylist ys => pyEqList xs ys
  | .str s, .str t => s == t
  | .date s, .date t => s == t
  | PyValue.none, PyValue.none => true
  | a, b =>
      match toComplexPair a, toComplexPair b with
      | some x, some y => x == y
      | _, _ => false
/-- Python `==` on lists: elementwise. -/
def pyEqList : PyList → PyList → Bool
  | .nil, .nil => true
  | .cons x xs, .cons y ys => pyEq x y && pyEqList xs ys
  | _, _ => false
end

/-- `PropertySet.__eq__`, which is `dict.__eq__`: same keys, `==`-equal
values (insertion order irrelevant). -/
def psEq (p q : PropertySet) : Bool :=
  (p.all fun kv =>
    match lookupVal q kv.1 with
    | some v => pyEq kv.2 v
    | Option.none => false) &&
  (q.all fun kv =>
    match lookupVal p kv.1 with
    | some v => pyEq v kv.2
    | Option.none => false)

/-! ## PropertySet.__hash__

The source is

    def __hash__(self):
        value = 0
        for key, value in self.items():
            if isinstance(value, list):
                value ^= hash((key, tuple(value)))
            else:
                value ^= hash((key, value))
        return value

The loop variable `value` shadows the accumulator: every iteration first
rebinds `value` to the dict entry's value and then xors the pair hash
into THAT, so the running total of earlier iterations is discarded, and
`value ^ hash(...)` is a `TypeError` unless the entry's value is an
`int`/`bool`.  The model reproduces this faithfully; `hash((key, value))`
itself (CPython's salted, implementation-defined tuple hash) is modelled
by the concrete `pairHash` below — only its use inside the loop matters
to the claims. -/

/-- Python `^` on arbitrary-precision ints (two's complement). -/
def intXor : Int → Int → Int
  | Int.ofNat m, Int.ofNat n => Int.ofNat (m ^^^ n)
  | Int.ofNat m, Int.negSucc n => Int.negSucc (m ^^^ n)
  | Int.negSucc m, Int.ofNat n => Int.negSucc (m ^^^ n)
  | Int.negSucc m, Int.negSucc n => Int.ofNat (m ^^^ n)

/-- Model of CPython's `hash` on a string key. -/
def strHash (s : String) : Int :=
  s.data.foldl (fun h c => h * 31 + (c.toNat : Int)) 7

/-- Model of CPython's `hash` on a (hashable) property value. -/
def valHash : PyValue → Int
  | .bool b => if b then 1 else 0
  | .int i => i
  | .float f => f.num + (f.den : Int)
  | .str s => strHash s
  | _ => 0

/-- Model of `hash((key, value))` (for list values, of
`hash((key, tuple(value)))`). -/
def pairHash (k : String) (v : PyValue) : Int :=
  intXor (strHash k * 1000003) (valHash v)

/-- The error `PropertySet.__hash__` can raise. -/
inductive PyErr
  | typeError
deriving DecidableEq, Repr

/-- One loop iteration of `__hash__`: rebinds `value` to the entry's
value and xors the pair hash into it; `TypeError` unless the value
supports `^` with an int (only `int` and `bool` do). -/
def hashStep (k : String) (v : PyValue) : Except PyErr Int :=
  match v with
  | .bool b => .ok (intXor (if b then 1 else 0) (pairHash k (.bool b)))
  | .int i => .ok (intXor i (pairHash k (.int i)))
  | _ => .error PyErr.typeError

/-- `PropertySet.__hash__`: iterate the entries in insertion order; each
iteration throws the accumulator away (the shadowing described above). -/
def psHash (ps : PropertySet) : Except PyErr Int :=
  ps.foldlM (fun _acc kv => hashStep kv.1 kv.2) 0

/-! ## GraphView, Node, Relationship

Entities are reference types compared by identity; they are modelled by
an id together with their construction-time shape.  The objects that can
sit in a graph view's node set (or a relationship's endpoints tuple) are
node references, Python `None` (the endpoints of an under-applied
`Relationship(...)` constructor) and strings (a relationship type passed
positionally); `Obj` covers these. -/

/-- A Python object reference as it appears in endpoint/node positions. -/
inductive Obj
  | none
  | node (id : Nat)
  | str (s : String)
deriving DecidableEq, Repr

/-- A `Relationship` entity: identity, endpoints tuple, type. -/
structure Relationship where
  rid : Nat
  endpoints : List Obj
  type : Obj
deriving DecidableEq, Repr

/-- `Relationship(...)`'s arity-dependent constructor: zero args — no
endpoints, no type; one arg — that arg is the type; two args — both are
endpoints; three or more — first and third-onwards are the endpoints,
second is the type. -/
def relationshipInit (rid : Nat) (args : List Obj) : Relationship :=
  match args with
  | [] => { rid := rid, endpoints := [Obj.none, Obj.none], type := Obj.none }
  | [t] => { rid := rid, endpoints := [Obj.none, Obj.none], type := t }
  | [a, b] => { rid := rid, endpoints := [a, b], type := Obj.none }
  | a :: t :: rest => { rid := rid, endpoints := a :: rest, type := t }

/-- A relationship's own graph-view node set: `frozenset(endpoints)`. -/
def Relationship.nodes (r : Relationship) : Finset Obj :=
  r.endpoints.toFinset

/-- `Relationship.start`: `endpoints[0]`. -/
def Relationship.start (r : Relationship) : Option Obj :=
  r.endpoints.head?

/-- `Relationship.end`: `endpoints[-1]`. -/
def Relationship.end_ (r : Relationship) : Option Obj :=
  r.endpoints.getLast?

/-- A `GraphView`: a frozen set of nodes and a frozen set of
relationships. -/
structure GraphView where
  nodes : Finset Obj
  relationships : Finset Relationship

/-- `GraphView.order`: node count. -/
def GraphView.order (g : GraphView) : Nat := g.nodes.card

/-- `GraphView.size`: relationship count. -/
def GraphView.size (g : GraphView) : Nat := g.relationships.card

/-- The `GraphView` a `Relationship` registers for itself:
`GraphView(self.endpoints, [self])`. -/
def Relationship.graphView (r : Relationship) : GraphView :=
  { nodes := r.endpoints.toFinset, relationships := {r} }

/-- `GraphView.__sub__`: the surviving relationships are the set
difference; the node set is the node difference together with every
endpoint of every surviving relationship (the induction rule). -/
def GraphView.sub (A B : GraphView) : GraphView :=
  let relationships := A.relationships \ B.relationships
  { nodes := (A.nodes \ B.nodes) ∪ relationships.biUnion Relationship.nodes
    relationships := relationships }

/-- `GraphView.__xor__`: symmetric difference on relationships; node set
is the symmetric node difference together with every endpoint of every
relationship in the result. -/
def GraphView.symdiff (A B : GraphView) : GraphView :=
  let relationships :=
    (A.relationships \ B.relationships) ∪ (B.relationships \ A.relationships)
  { nodes := ((A.nodes \ B.nodes) ∪ (B.nodes \ A.nodes))
      ∪ relationships.biUnion Relationship.nodes
    relationships := relationships }

/-! ## Claims -/

/-- C1: for all GraphViews `A` and `B`, `A - B` has relationship set
`A.relationships \ B.relationships` and node set
`(A.nodes \ B.nodes) ∪ (endpoints of every surviving relationship)`; in
particular, for a relationship `r` with endpoints `a`, `b` contained in
`A` and `B` holding node `b` alone with no relationships, `A - B` has
node set `{a, b}` and relationship set `{r}`. -/
theorem C1_graphview_difference :
    (∀ A B : GraphView,
        (A.sub B).relationships = A.relationships \ B.relationships ∧
        (A.sub B).nodes =
          (A.nodes \ B.nodes)
            ∪ (A.relationships \ B.relationships).biUnion Relationship.nodes) ∧
    (GraphView.sub
        { nodes := {Obj.node 1, Obj.node 2},
          relationships := {relationshipInit 7 [Obj.node 1, Obj.node 2]} }
        { nodes := {Obj.node 2}, relationships := ∅ }).nodes
      = {Obj.node 1, Obj.node 2} ∧
    (GraphView.sub
        { nodes := {Obj.node 1, Obj.node 2},
          relationships := {relationshipInit 7 [Obj.node 1, Obj.node 2]} }
        { nodes := {Obj.node 2}, relationships := ∅ }).relationships
      = {relationshipInit 7 [Obj.node 1, Obj.node 2]} := by
  refine ⟨fun A B => ⟨rfl, rfl⟩, by decide, by decide⟩

/-- C2 (code bug): `PropertySet.__hash__`'s loop variable `value`
shadows the accumulator, so the hash of a non-empty all-integer set is
`last_value ^ hash((last_key, last_value))` — the earlier entries are
discarded — and hashing raises `TypeError` for any non-`int`/`bool`
value.  Hence the two equal PropertySets built from `a:1, b:2` in the
two insertion orders hash differently, `{a:1, b:2}` hashes exactly like
`{b:2}`, and a string-valued set does not hash at all. -/
theorem C2_hash_shadowed_accumulator :
    psEq (PropertySet.init [("a", .int 1), ("b", .int 2)])
        (PropertySet.init [("b", .int 2), ("a", .int 1)]) = true ∧
    psHash (PropertySet.init [("a", .int 1), ("b", .int 2)])
      = Except.ok 315000945 ∧
    psHash (PropertySet.init [("b", .int 2), ("a", .int 1)])
      = Except.ok 314000942 ∧
    (315000945 : Int) ≠ 314000942 ∧
    psHash (PropertySet.init [("b", .int 2)]) = Except.ok 315000945 ∧
    psHash [("a", PyValue.str "s")] = Except.error PyErr.typeError := by
  refine ⟨rfl, by decide, by decide, by decide, by decide, rfl⟩

/-- C6: `cast_property` on an integer is the identity exactly on
`[-2^63, 2^63 - 1]` and raises `OutOfRange` outside; in particular one
unit below the lower bound and one unit above the upper bound raise. -/
theorem C6_integer_range :
    (∀ i : Int,
        cast_property (.int i) =
          if JAVA_INTEGER_MIN_VALUE ≤ i ∧ i ≤ JAVA_INTEGER_MAX_VALUE
          then .ok (.int i) else .error .outOfRange) ∧
    cast_property (.int (JAVA_INTEGER_MIN_VALUE - 1)) = .error .outOfRange ∧
    cast_property (.int (JAVA_INTEGER_MAX_VALUE + 1)) = .error .outOfRange ∧
    cast_property (.int JAVA_INTEGER_MIN_VALUE)
      = .ok (.int JAVA_INTEGER_MIN_VALUE) ∧
    cast_property (.int JAVA_INTEGER_MAX_VALUE)
      = .ok (.int JAVA_INTEGER_MAX_VALUE) := by
  refine ⟨fun i => rfl, by decide, by decide, by decide, by decide⟩

/-- C9: when the relationship set of a difference (resp. symmetric
difference) is empty, the induction union contributes nothing and the
node set is exactly the plain node-set difference (resp. symmetric
difference). -/
theorem C9_empty_result_relationships (A B : GraphView) :
    ((A.sub B).relationships = ∅ → (A.sub B).nodes = A.nodes \ B.nodes) ∧
    ((A.symdiff B).relationships = ∅ →
      (A.symdiff B).nodes = (A.nodes \ B.nodes) ∪ (B.nodes \ A.nodes)) := by
  constructor
  · intro h
    have h' : A.relationships \ B.relationships = ∅ := h
    show (A.nodes \ B.nodes)
        ∪ (A.relationships \ B.relationships).biUnion Relationship.nodes
      = A.nodes \ B.nodes
    rw [h', Finset.biUnion_empty, Finset.union_empty]
  · intro h
    have h' : (A.relationships \ B.relationships)
        ∪ (B.relationships \ A.relationships) = ∅ := h
    show ((A.nodes \ B.nodes) ∪ (B.nodes \ A.nodes))
        ∪ ((A.relationships \ B.relationships)
            ∪ (B.relationships \ A.relationships)).biUnion Relationship.nodes
      = (A.nodes \ B.nodes) ∪ (B.nodes \ A.nodes)
    rw [h', Finset.biUnion_empty, Finset.union_empty]

/-- Witness for C9 at concrete relationship-free views. -/
theorem C9_empty_result_relationships_witness :
    (GraphView.sub { nodes := {Obj.node 1}, relationships := ∅ }
        { nodes := {Obj.node 2}, relationships := ∅ }).nodes
      = ({Obj.node 1} : Finset Obj) \ {Obj.node 2} ∧
    (GraphView.symdiff { nodes := {Obj.node 1}, relationships := ∅ }
        { nodes := {Obj.node 2}, relationships := ∅ }).nodes
      = (({Obj.node 1} : Finset Obj) \ {Obj.node 2})
          ∪ (({Obj.node 2} : Finset Obj) \ {Obj.node 1}) :=
  ⟨(C9_empty_result_relationships _ _).1 (by decide),
   (C9_empty_result_relationships _ _).2 (by decide)⟩

/-- C10: a `Relationship` built with zero or one positional arguments
has endpoints `(None, None)`, its own graph view's node set is the
singleton `{None}` (order 1, not empty), and `start` and `end` both
return `None`. -/
theorem C10_default_endpoints (rid : Nat) (t : Obj) :
    (relationshipInit rid []).endpoints = [Obj.none, Obj.none] ∧
    (relationshipInit rid [t]).endpoints = [Obj.none, Obj.none] ∧
    (relationshipInit rid []).graphView.nodes = {Obj.none} ∧
    (relationshipInit rid [t]).graphView.nodes = {Obj.none} ∧
    (relationshipInit rid []).graphView.order = 1 ∧
    (relationshipInit rid [t]).graphView.order = 1 ∧
    (relationshipInit rid []).start = some Obj.none ∧
    (relationshipInit rid []).end_ = some Obj.none ∧
    (relationshipInit rid [t]).start = some Obj.none ∧
    (relationshipInit rid [t]).end_ = some Obj.none := by
  refine ⟨rfl, rfl, rfl, rfl, rfl, rfl, rfl, rfl, rfl, rfl⟩

/-! ## Idempotence of the caster -/

mutual
/-- A successful cast result is a fixed point of `cast_property`. -/
theorem cast_property_idem : ∀ (v w : PyValue),
    cast_property v = Except.ok w → cast_property w = Except.ok w
  | .bool _, _, h => by
      simp only [cast_property, Except.ok.injEq] at h; subst h; rfl
  | .float _, _, h => by
      simp only [cast_property, Except.ok.injEq] at h; subst h; rfl
  | .int i, w, h => by
      by_cases hP : JAVA_INTEGER_MIN_VALUE ≤ i ∧ i ≤ JAVA_INTEGER_MAX_VALUE
      · simp only [cast_property, if_pos hP, Except.ok.injEq] at h
        subst h
        simp only [cast_property, if_pos hP]
      · simp only [cast_property, if_neg hP] at h
        exact Except.noConfusion h
  | .str _, _, h => by
      simp only [cast_property, Except.ok.injEq] at h; subst h; rfl
  | .pylist xs, w, h => by
      cases hc : cast_property_list Option.none xs with
      | error e => simp [cast_property, hc] at h
      | ok ys =>
          simp only [cast_property, hc, Except.ok.injEq] at h
          subst h
          simp only [cast_property, cast_property_list_idem Option.none xs ys hc]
  | .date _, _, h => by
      simp only [cast_property, Except.ok.injEq] at h; subst h; rfl
  | .decimal _, _, h => by
      simp only [cast_property, Except.ok.injEq] at h; subst h; rfl
  | .complex _ _, _, h => by
      simp only [cast_property, Except.ok.injEq] at h; subst h; rfl
  | .none, _, h => by simp [cast_property] at h
  | .other, _, h => by simp [cast_property] at h
/-- A successful run of the item loop is a fixed point of the loop,
with any `list_type` seed. -/
theorem cast_property_list_idem : ∀ (lt : Option PyType) (xs ys : PyList),
    cast_property_list lt xs = Except.ok ys →
      cast_property_list lt ys = Except.ok ys
  | _, .nil, ys, h => by
      simp only [cast_property_list, Except.ok.injEq] at h
      subst h
      rfl
  | lt, .cons x rest, ys, h => by
      cases hx : cast_property x with
      | error e => simp [cast_property_list, hx] at h
      | ok item =>
          have hitem : cast_property item = Except.ok item :=
            cast_property_idem x item hx
          cases lt with
          | none =>
              cases ht : typeOfValue item == PyType.listT with
              | true => simp [cast_property_list, hx, ht] at h
              | false =>
                  cases hrest :
                      cast_property_list (some (typeOfValue item)) rest with
                  | error e => simp [cast_property_list, hx, ht, hrest] at h
                  | ok tail =>
                      have htail :=
                        cast_property_list_idem (some (typeOfValue item)) rest
                          tail hrest
                      simp only [cast_property_list, hx, ht, hrest,
                        Bool.false_eq_true, if_false, Except.ok.injEq] at h
                      subst h
                      simp [cast_property_list, hitem, ht, htail]
          | some t =>
              cases hi : isinstanceOf (typeOfValue item) t with
              | false => simp [cast_property_list, hx, hi] at h
              | true =>
                  cases hrest : cast_property_list (some t) rest with
                  | error e => simp [cast_property_list, hx, hi, hrest] at h
                  | ok tail =>
                      have htail :=
                        cast_property_list_idem (some t) rest tail hrest
                      simp only [cast_property_list, hx, hi, hrest, if_true,
                        Except.ok.injEq] at h
                      subst h
                      simp [cast_property_list, hitem, hi, htail]
end

/-- C8: the property caster is idempotent: whenever `cast_property v`
succeeds with result `w`, re-casting `w` succeeds and returns `w`
unchanged — across every supported value kind, including the normalized
forms of dates, decimals, complex numbers and sequences. -/
theorem C8_cast_idempotent (v w : PyValue)
    (h : cast_property v = Except.ok w) :
    cast_property w = Except.ok w :=
  cast_property_idem v w h

/-- Witness for C8: re-casting the normalized form of the complex number
`1 + 2j` (the two-element float list) returns it unchanged. -/
theorem C8_cast_idempotent_witness :
    cast_property (PyValue.pylist (.cons (.float 1) (.cons (.float 2) .nil)))
      = Except.ok
          (PyValue.pylist (.cons (.float 1) (.cons (.float 2) .nil))) :=
  C8_cast_idempotent (PyValue.complex 1 2)
    (PyValue.pylist (.cons (.float 1) (.cons (.float 2) .nil))) (by rfl)


/-! ## Association-list lemmas for the PropertySet claims -/

/-- A key that is not contained looks up to nothing. -/
theorem lookup_none_of_not_contains : ∀ (ps : PropertySet) (k : String),
    containsKey ps k = false → lookupVal ps k = Option.none
  | [], _, _ => rfl
  | (k', v') :: rest, k, h => by
      by_cases hk : k' = k
      · simp [containsKey, hk] at h
      · simp only [containsKey, if_neg hk] at h
        simp [lookupVal, hk, lookup_none_of_not_contains rest k h]

/-- After deleting a key it is no longer contained. -/
theorem contains_eraseKey_self : ∀ (ps : PropertySet) (k : String),
    containsKey (eraseKey ps k) k = false
  | [], _ => rfl
  | (k', v') :: rest, k => by
      by_cases hk : k' = k
      · simp [eraseKey, hk, contains_eraseKey_self rest k]
      · simp [eraseKey, hk, containsKey, contains_eraseKey_self rest k]

/-- Deleting one key leaves every other key's lookup unchanged. -/
theorem lookup_eraseKey_ne : ∀ (ps : PropertySet) (k k' : String),
    k' ≠ k → lookupVal (eraseKey ps k) k' = lookupVal ps k'
  | [], _, _, _ => rfl
  | (k₀, v₀) :: rest, k, k', hne => by
      have ih := lookup_eraseKey_ne rest k k' hne
      by_cases hk : k₀ = k
      · have hk' : ¬(k = k') := fun h => hne h.symm
        simp [eraseKey, hk, lookupVal, hk', ih]
      · simp [eraseKey, hk, lookupVal, ih]

/-- Overwriting a key and then deleting it is the same as deleting it. -/
theorem eraseKey_dictSet : ∀ (ps : PropertySet) (k : String) (c : PyValue),
    eraseKey (dictSet ps k c) k = eraseKey ps k
  | [], k, c => by simp [dictSet, eraseKey]
  | (k₀, v₀) :: rest, k, c => by
      by_cases hk : k₀ = k
      · simp [dictSet, hk, eraseKey]
      · simp [dictSet, hk, eraseKey, eraseKey_dictSet rest k c]

/-- Deleting a key twice is the same as deleting it once. -/
theorem eraseKey_idem : ∀ (ps : PropertySet) (k : String),
    eraseKey (eraseKey ps k) k = eraseKey ps k
  | [], _ => rfl
  | (k₀, v₀) :: rest, k => by
      by_cases hk : k₀ = k
      · simp [eraseKey, hk, eraseKey_idem rest k]
      · simp [eraseKey, hk, eraseKey_idem rest k]

/-- On a value other than `None`, `__setitem__` is the cast-then-store
branch. -/
theorem setitem_eq (ps : PropertySet) (k : String) (v : PyValue)
    (hv : v ≠ PyValue.none) :
    PropertySet.setitem ps k v =
      match cast_property v with
      | .ok c => (dictSet ps k c, Option.none)
      | .error e => (ps, some e) := by
  cases v
  case none => exact absurd rfl hv
  all_goals rfl

/-- On an absent key and a non-`None` default, `setdefault` stores the
default as given (uncast) at the end of the dict and returns it. -/
theorem setdefault_eq (ps : PropertySet) (k : String) (d : PyValue)
    (hd : d ≠ PyValue.none) (hck : containsKey ps k = false) :
    PropertySet.setdefault ps k d = (d, ps ++ [(k, d)]) := by
  have hl : lookupVal ps k = Option.none :=
    lookup_none_of_not_contains ps k hck
  cases d
  case none => exact absurd rfl hd
  all_goals simp [PropertySet.setdefault, hck, dictSetdefault, hl]

/-! ## The no-`None`-values invariant -/

/-- A successful cast never returns `None`. -/
theorem cast_ok_not_none (v c : PyValue)
    (h : cast_property v = Except.ok c) : isNoneVal c = false := by
  cases v with
  | int i =>
      by_cases hP : JAVA_INTEGER_MIN_VALUE ≤ i ∧ i ≤ JAVA_INTEGER_MAX_VALUE
      · simp only [cast_property, if_pos hP, Except.ok.injEq] at h
        subst h; rfl
      · simp [cast_property, if_neg hP] at h
  | pylist xs =>
      cases hc : cast_property_list Option.none xs with
      | error e => simp [cast_property, hc] at h
      | ok ys =>
          simp only [cast_property, hc, Except.ok.injEq] at h
          subst h; rfl
  | none => simp [cast_property] at h
  | other => simp [cast_property] at h
  | _ =>
      simp only [cast_property, Except.ok.injEq] at h
      subst h; rfl

/-- Deletion preserves the invariant. -/
theorem noNone_eraseKey : ∀ (ps : PropertySet) (k : String),
    noNoneVals ps = true → noNoneVals (eraseKey ps k) = true
  | [], _, _ => rfl
  | (k₀, v₀) :: rest, k, h => by
      simp only [noNoneVals, List.all_cons, Bool.and_eq_true] at h
      by_cases hk : k₀ = k
      · simpa [eraseKey, hk] using noNone_eraseKey rest k h.2
      · have ih := noNone_eraseKey rest k h.2
        simp only [noNoneVals] at ih
        simp [eraseKey, hk, noNoneVals, List.all_cons, h.1, ih]

/-- Storing a non-`None` value preserves the invariant. -/
theorem noNone_dictSet : ∀ (ps : PropertySet) (k : String) (c : PyValue),
    noNoneVals ps = true → isNoneVal c = false →
      noNoneVals (dictSet ps k c) = true
  | [], k, c, _, hc => by simp [dictSet, noNoneVals, hc]
  | (k₀, v₀) :: rest, k, c, h, hc => by
      simp only [noNoneVals, List.all_cons, Bool.and_eq_true] at h
      by_cases hk : k₀ = k
      · simp [dictSet, hk, noNoneVals, List.all_cons, hc, h.2]
      · have ih := noNone_dictSet rest k c h.2 hc
        simp only [noNoneVals] at ih
        simp [dictSet, hk, noNoneVals, List.all_cons, h.1, ih]

/-- `__setitem__` preserves the invariant. -/
theorem noNone_setitem (ps : PropertySet) (k : String) (v : PyValue)
    (h : noNoneVals ps = true) :
    noNoneVals (PropertySet.setitem ps k v).1 = true := by
  by_cases hv : v = PyValue.none
  · subst hv
    exact noNone_eraseKey ps k h
  · rw [setitem_eq ps k v hv]
    cases hc : cast_property v with
    | ok c => exact noNone_dictSet ps k c h (cast_ok_not_none v c hc)
    | error e => exact h

/-- The `update` loop preserves the invariant. -/
theorem noNone_applySetitems : ∀ (items : List (String × PyValue))
    (ps : PropertySet), noNoneVals ps = true →
      noNoneVals (applySetitems ps items).1 = true
  | [], _, h => h
  | (k, v) :: rest, ps, h => by
      have h1 := noNone_setitem ps k v h
      cases hs : PropertySet.setitem ps k v with
      | mk ps' err =>
          rw [hs] at h1
          cases err with
          | none =>
              have := noNone_applySetitems rest ps' h1
              simpa [applySetitems, hs] using this
          | some e => simpa [applySetitems, hs] using h1

/-- `setdefault` preserves the invariant. -/
theorem noNone_setdefault (ps : PropertySet) (k : String) (d : PyValue)
    (h : noNoneVals ps = true) :
    noNoneVals (PropertySet.setdefault ps k d).2 = true := by
  cases hck : containsKey ps k with
  | true => simpa [PropertySet.setdefault, hck] using h
  | false =>
      by_cases hd : d = PyValue.none
      · subst hd; simpa [PropertySet.setdefault, hck] using h
      · rw [setdefault_eq ps k d hd hck]
        have hdn : isNoneVal d = false := by
          cases d <;> first | rfl | exact absurd rfl hd
        simp only [noNoneVals] at h
        simp [noNoneVals, List.all_append, h, hdn]

/-- C3 (counterexample): `setdefault` on an absent key stores and
returns the raw default, not its canonical cast.  For a `date` default
the caster would canonicalize to the ISO string, but the stored and
returned value is still the `date` object — which Python `==` does not
even equate with the canonical string. -/
theorem C3_counterexample :
    PropertySet.setdefault [] "k" (PyValue.date "2020-01-01")
      = (PyValue.date "2020-01-01", [("k", PyValue.date "2020-01-01")]) ∧
    cast_property (PyValue.date "2020-01-01")
      = Except.ok (PyValue.str "2020-01-01") ∧
    PyValue.date "2020-01-01" ≠ PyValue.str "2020-01-01" ∧
    pyEq (PyValue.date "2020-01-01") (PyValue.str "2020-01-01") = false :=
  ⟨rfl, rfl, by decide, rfl⟩

/-- C3 (amended): `setdefault(key, default)` returns the existing value
when the key is present; when the key is absent and the default is the
absent marker it returns the absent marker without mutating; otherwise
it stores the default AS GIVEN (uncast, via `dict.setdefault`) at the
end of the dict and returns that raw default. -/
theorem C3_setdefault_amended (ps : PropertySet) (k : String) (d : PyValue) :
    (containsKey ps k = true →
        PropertySet.setdefault ps k d = (PropertySet.getitem ps k, ps)) ∧
    (containsKey ps k = false → d = PyValue.none →
        PropertySet.setdefault ps k d = (PyValue.none, ps)) ∧
    (containsKey ps k = false → d ≠ PyValue.none →
        PropertySet.setdefault ps k d = (d, ps ++ [(k, d)])) := by
  refine ⟨?_, ?_, ?_⟩
  · intro hck
    simp [PropertySet.setdefault, hck]
  · intro hck hd
    subst hd
    simp [PropertySet.setdefault, hck]
  · intro hck hd
    exact setdefault_eq ps k d hd hck

/-- Witness for the amended C3 at concrete inputs. -/
theorem C3_setdefault_amended_witness :
    PropertySet.setdefault [("a", PyValue.int 1)] "a" (PyValue.int 9)
      = (PropertySet.getitem [("a", PyValue.int 1)] "a",
          [("a", PyValue.int 1)]) ∧
    PropertySet.setdefault [] "k" PyValue.none = (PyValue.none, []) ∧
    PropertySet.setdefault [] "k" (PyValue.bool true)
      = (PyValue.bool true, [] ++ [("k", PyValue.bool true)]) :=
  ⟨(C3_setdefault_amended [("a", PyValue.int 1)] "a" (PyValue.int 9)).1
      (by decide),
   (C3_setdefault_amended [] "k" PyValue.none).2.1 (by decide) rfl,
   (C3_setdefault_amended [] "k" (PyValue.bool true)).2.2 (by decide)
      (by decide)⟩

/-- C4 (counterexample): a sequence whose SECOND element is a nested
sequence raises `MixedListType`, not `NestedListNotAllowed` —
`cast_property([1, [2]])` is the `TypeError` for mixed item types. -/
theorem C4_counterexample :
    cast_property (PyValue.pylist (.cons (.int 1)
        (.cons (.pylist (.cons (.int 2) .nil)) .nil)))
      = Except.error CastError.mixedListType ∧
    CastError.mixedListType ≠ CastError.nestedListNotAllowed :=
  ⟨rfl, by decide⟩

/-- C4 (amended): `NestedListNotAllowed` is raised exactly when the
FIRST element's cast result is a list (that fixes `list_type`); a later
element whose cast result is a list fails the `isinstance` check against
the already-fixed non-list element type and raises `MixedListType`
instead.  A genuinely mixed pair such as an int followed by a string
also raises `MixedListType`, while an int followed by a bool is accepted
(`bool` is a subclass of `int`), so the element type of a list is fixed
by its first element. -/
theorem C4_mixed_and_nested_amended :
    (∀ (x : PyValue) (xs : PyList) (w : PyValue),
        cast_property x = Except.ok w → typeOfValue w = PyType.listT →
        cast_property (PyValue.pylist (.cons x xs))
          = Except.error CastError.nestedListNotAllowed) ∧
    (∀ (t : PyType) (x : PyValue) (rest : PyList) (w : PyValue),
        cast_property x = Except.ok w → typeOfValue w = PyType.listT →
        t ≠ PyType.listT →
        cast_property_list (some t) (.cons x rest)
          = Except.error CastError.mixedListType) ∧
    cast_property (PyValue.pylist (.cons (.int 1) (.cons (.str "s") .nil)))
      = Except.error CastError.mixedListType ∧
    cast_property (PyValue.pylist (.cons (.int 1) (.cons (.bool true) .nil)))
      = Except.ok (PyValue.pylist (.cons (.int 1) (.cons (.bool true) .nil)))
    := by
  refine ⟨?_, ?_, rfl, rfl⟩
  · intro x xs w hx hw
    simp [cast_property, cast_property_list, hx, hw]
  · intro t x rest w hx hw ht
    have hi : isinstanceOf (typeOfValue w) t = false := by
      rw [hw]
      cases t <;> first | decide | exact absurd rfl ht
    simp [cast_property_list, hx, hi]

/-- Witness for the amended C4: a nested list in first position raises
`NestedListNotAllowed`; with a previously fixed `int` element type the
same nested list raises `MixedListType`. -/
theorem C4_mixed_and_nested_amended_witness :
    cast_property (PyValue.pylist (.cons (.pylist (.cons (.int 2) .nil)) .nil))
      = Except.error CastError.nestedListNotAllowed ∧
    cast_property_list (some PyType.intT)
        (.cons (.pylist (.cons (.int 2) .nil)) .nil)
      = Except.error CastError.mixedListType :=
  ⟨C4_mixed_and_nested_amended.1 (PyValue.pylist (.cons (.int 2) .nil)) .nil
      (PyValue.pylist (.cons (.int 2) .nil)) (by rfl) (by rfl),
   C4_mixed_and_nested_amended.2.1 PyType.intT
      (PyValue.pylist (.cons (.int 2) .nil)) .nil
      (PyValue.pylist (.cons (.int 2) .nil)) (by rfl) (by rfl) (by decide)⟩

/-- C5 (counterexample): `update` is not atomic.  Updating an empty
PropertySet with a good pair followed by an unsupported value raises
`InvalidPropertyType` but leaves the first pair stored — the set is no
longer the (unchanged) empty one. -/
theorem C5_counterexample :
    PropertySet.update [] [("a", PyValue.int 1), ("b", PyValue.other)]
      = ([("a", PyValue.int 1)], some CastError.invalidPropertyType) ∧
    ([("a", PyValue.int 1)] : PropertySet) ≠ ([] : PropertySet) :=
  ⟨rfl, by decide⟩

/-- C5 (amended): a SINGLE property assignment is atomic — whenever
`__setitem__` raises, the PropertySet is left unchanged.  (`update` and
`replace` assign keys one at a time through `__setitem__`, so a failure
partway leaves the earlier assignments — and `replace`'s clear — in
place, as the counterexample shows.) -/
theorem C5_setitem_atomic (ps : PropertySet) (k : String) (v : PyValue)
    (e : CastError) (h : (PropertySet.setitem ps k v).2 = some e) :
    (PropertySet.setitem ps k v).1 = ps := by
  by_cases hv : v = PyValue.none
  · subst hv
    simp [PropertySet.setitem] at h
  · rw [setitem_eq ps k v hv] at h ⊢
    cases hc : cast_property v with
    | ok c => rw [hc] at h; simp at h
    | error e' => rfl

/-- Witness for the amended C5: assigning an unsupported value raises
and leaves the one-entry set unchanged. -/
theorem C5_setitem_atomic_witness :
    (PropertySet.setitem [("x", PyValue.int 1)] "y" PyValue.other).1
      = [("x", PyValue.int 1)] :=
  C5_setitem_atomic [("x", PyValue.int 1)] "y" PyValue.other
    CastError.invalidPropertyType (by rfl)

/-- C7: assigning the absent marker removes the key, with no error even
when the key is already absent: afterwards containment is false and all
other keys are untouched; setting any value and then removing the key
leaves exactly the state with the key removed (so the result equals a
PropertySet in which the key was never set); and no PropertySet
reachable through `__setitem__`/`update`/`setdefault` ever maps a key to
the absent marker. -/
theorem C7_none_removes_key (ps : PropertySet) (k : String) :
    PropertySet.setitem ps k PyValue.none = (eraseKey ps k, Option.none) ∧
    containsKey (PropertySet.setitem ps k PyValue.none).1 k = false ∧
    (∀ k', k' ≠ k →
        lookupVal (PropertySet.setitem ps k PyValue.none).1 k'
          = lookupVal ps k') ∧
    (∀ v, eraseKey (PropertySet.setitem ps k v).1 k = eraseKey ps k) ∧
    (∀ v, noNoneVals ps = true →
        noNoneVals (PropertySet.setitem ps k v).1 = true) ∧
    (∀ items, noNoneVals ps = true →
        noNoneVals (PropertySet.update ps items).1 = true) ∧
    (∀ d, noNoneVals ps = true →
        noNoneVals (PropertySet.setdefault ps k d).2 = true) := by
  refine ⟨rfl, contains_eraseKey_self ps k,
    fun k' h => lookup_eraseKey_ne ps k k' h, ?_,
    fun v h => noNone_setitem ps k v h,
    fun items h => noNone_applySetitems (pyDict items) ps h,
    fun d h => noNone_setdefault ps k d h⟩
  intro v
  by_cases hv : v = PyValue.none
  · subst hv
    exact eraseKey_idem ps k
  · rw [setitem_eq ps k v hv]
    cases hc : cast_property v with
    | ok c => exact eraseKey_dictSet ps k c
    | error e => rfl

/-- Witness for C7 at a concrete two-entry PropertySet. -/
theorem C7_none_removes_key_witness :
    lookupVal (PropertySet.setitem [("a", PyValue.int 1), ("k", PyValue.int 2)]
        "k" PyValue.none).1 "a"
      = lookupVal [("a", PyValue.int 1), ("k", PyValue.int 2)] "a" ∧
    noNoneVals (PropertySet.setitem [("a", PyValue.int 1), ("k", PyValue.int 2)]
        "k" (PyValue.int 5)).1 = true ∧
    noNoneVals (PropertySet.update [("a", PyValue.int 1), ("k", PyValue.int 2)]
        [("b", PyValue.int 3)]).1 = true ∧
    noNoneVals (PropertySet.setdefault
        [("a", PyValue.int 1), ("k", PyValue.int 2)] "k" (PyValue.int 7)).2
      = true :=
  ⟨(C7_none_removes_key [("a", PyValue.int 1), ("k", PyValue.int 2)]
      "k").2.2.1 "a" (by decide),
   (C7_none_removes_key [("a", PyValue.int 1), ("k", PyValue.int 2)]
      "k").2.2.2.2.1 (PyValue.int 5) (by decide),
   (C7_none_removes_key [("a", PyValue.int 1), ("k", PyValue.int 2)]
      "k").2.2.2.2.2.1 [("b", PyValue.int 3)] (by decide),
   (C7_none_removes_key [("a", PyValue.int 1), ("k", PyValue.int 2)]
      "k").2.2.2.2.2.2 (PyValue.int 7) (by decide)⟩
